import Mathlib

/-!
blazingsql: retryable tasks and memory accounting.

A shallow embedding of

* `engine/src/execution_graph/logic_controllers/taskflow/kernel.cpp`
  (`kernel::process`, `kernel::add_task`, `kernel::notify_complete`, `task::run`,
  `executor::execute`), and
* `engine/src/bmr/BlazingMemoryResource.h`
  (the device, host and disk memory resources and the device singleton).

C++ exceptions are modelled by an explicit outcome, `std::size_t` by `Nat` reduced modulo
`2 ^ 64` wherever the source does arithmetic on it, and calls into collaborators that live
outside these two files (`decache`, `do_process`, the rmm allocators, the OS probes) by
parameters.
-/

/-! ## Exceptions -/

/-- The dynamic class of a thrown C++ object, as far as the handlers of `kernel.cpp`
tell classes apart. -/
inductive ExnClass where
  /-- The class `rmm::bad_alloc`, which derives from `std::bad_alloc` and so from
  `std::exception`. -/
  | rmm_bad_alloc
  /-- An object whose dynamic type is exactly `std::exception`. -/
  | std_exception
  /-- Any other class derived from `std::exception`, by name (`std::runtime_error`, ...). -/
  | std_derived (name : String)
  /-- A thrown object whose class does not derive from `std::exception`. -/
  | foreign (name : String)
  deriving DecidableEq

/-- A thrown object: its dynamic class and the payload reported by `what()`. -/
structure Exn where
  cls : ExnClass
  what : String
  deriving DecidableEq

/-- Does a handler `catch (rmm::bad_alloc e)` accept the object? -/
def Exn.is_rmm_bad_alloc (e : Exn) : Bool :=
  match e.cls with
  | .rmm_bad_alloc => true
  | _ => false

/-- Does a handler `catch (std::exception e)` accept the object? -/
def Exn.is_std_exception (e : Exn) : Bool :=
  match e.cls with
  | .foreign _ => false
  | _ => true

/-- The object built by `catch (std::exception e)`: the handler parameter is a by-value copy
of the `std::exception` base, so its dynamic class is `std::exception` and its `what()` is
the one of the base class. `throw e;` throws a copy of that object. -/
def Exn.sliced (_e : Exn) : Exn :=
  { cls := .std_exception, what := "std::exception" }

/-- How a call ends: it returns, it throws, or its behaviour is undefined. -/
inductive Outcome where
  | returned
  | raised (e : Exn)
  | undefined
  deriving DecidableEq

/-! ## Cache data -/

/-- A `ral::frame::BlazingTable`, by identity. -/
abbrev Table := Nat

/-- A `std::unique_ptr<ral::frame::BlazingTable>`; `none` is the null pointer. -/
abbrev TablePtr := Option Table

namespace ral
namespace cache

/-- Modelled from the spec: the enum `CacheDataType` is declared outside `kernel.cpp`; the
four tiers are device-resident, host-resident, disk-resident and device-with-metadata. -/
inductive CacheDataType where
  | GPU
  | CPU
  | LOCAL_FILE
  | GPU_METADATA
  deriving DecidableEq

/-- A `CacheData` handle seen through the three operations `kernel::process` uses:
`get_type()`, `decache()` (its result is a parameter of the handle) and `set_data()`
(recorded in a log of the tables it was given). -/
structure CacheData where
  type : CacheDataType
  decache : Except Exn TablePtr
  decache_calls : Nat
  set_data_log : List TablePtr

/-- The handle after a call of `decache()`. -/
def CacheData.decached (c : CacheData) : CacheData :=
  { c with decache_calls := c.decache_calls + 1 }

/-- The handle after `set_data(p)`. -/
def CacheData.set_data (c : CacheData) (p : TablePtr) : CacheData :=
  { c with set_data_log := c.set_data_log ++ [p] }

/-- What a call `do_process(std::move(input_gpu), output, stream, name)` does, as seen by
`kernel::process`: whether it threw, and what the caller's vector `input_gpu` holds once the
call is over. A `do_process` that takes its first parameter by value leaves the moved-from
vector empty. -/
structure DoProcessResult where
  raised : Option Exn
  input_gpu_after : List TablePtr

/-- The opaque transform of a kernel: tables, output, stream, name. -/
abbrev DoProcess := List TablePtr → Nat → Nat → String → DoProcessResult

/-- The first loop of `kernel::process`: `decache()` every input in order and push the
tables onto `input_gpu`; an exception accepted by `catch (std::exception e)` is replaced by
`throw e;`, any other one propagates as it is. Returns the handles and the tables or the
error. -/
def decache_loop : List CacheData → List TablePtr → List CacheData × Except Exn (List TablePtr)
  | [], input_gpu => ([], .ok input_gpu)
  | input :: rest, input_gpu =>
    match input.decache with
    | .error e =>
      (input.decached :: rest, .error (if e.is_std_exception then e.sliced else e))
    | .ok t =>
      let r := decache_loop rest (input_gpu ++ [t])
      (input.decached :: r.1, r.2)

/-- The loop of the handler in `kernel::process` ("remake inputs here"), from index `i`:
a handle of type `GPU` or `GPU_METADATA` gets `set_data(std::move(input_gpu[i]))`.
`none` stands for undefined behaviour: `input_gpu[i]` with `i` outside the vector. -/
def restore_loop : List CacheData → List TablePtr → Nat → Option (List CacheData)
  | [], _, _ => some []
  | input :: rest, input_gpu, i =>
    if input.type = CacheDataType.GPU ∨ input.type = CacheDataType.GPU_METADATA then
      match input_gpu.get? i with
      | none => none
      | some p =>
        (restore_loop rest (input_gpu.set i none) (i + 1)).map (fun r => input.set_data p :: r)
    else
      (restore_loop rest input_gpu (i + 1)).map (fun r => input :: r)

/-- What `kernel::process` did: how it ended and the state of the input handles. -/
structure ProcessResult where
  outcome : Outcome
  inputs : List CacheData

/-- The body of `kernel::process(inputs, output, stream, kernel_process_name)`. -/
def kernel.process (do_process : DoProcess) (inputs : List CacheData) (output stream : Nat)
    (kernel_process_name : String) : ProcessResult :=
  match decache_loop inputs [] with
  | (inputs1, .error e) => { outcome := .raised e, inputs := inputs1 }
  | (inputs1, .ok input_gpu) =>
    let r := do_process input_gpu output stream kernel_process_name
    match r.raised with
    | none => { outcome := .returned, inputs := inputs1 }
    | some e =>
      if e.is_std_exception then
        match restore_loop inputs1 r.input_gpu_after 0 with
        | none => { outcome := .undefined, inputs := inputs1 }
        | some inputs2 => { outcome := .raised e, inputs := inputs2 }
      else
        { outcome := .raised e, inputs := inputs1 }

/-- The state of a `kernel` that `kernel.cpp` touches: its id and the in-flight set `tasks`
(a `std::set<size_t>`, kept as a list without duplicates). -/
structure Kernel where
  kernel_id : Nat
  tasks : List Nat

/-- The body of `kernel::add_task(task_id)`: `tasks.insert(task_id)`. -/
def kernel.add_task (k : Kernel) (task_id : Nat) : Kernel :=
  { k with tasks := k.tasks.insert task_id }

/-- The body of `kernel::notify_complete(task_id)`: `tasks.erase(task_id)`. -/
def kernel.notify_complete (k : Kernel) (task_id : Nat) : Kernel :=
  { k with tasks := k.tasks.erase task_id }

end cache

namespace execution

open ral.cache

/-- The fields of a `task`. -/
structure Task where
  inputs : List CacheData
  task_id : Nat
  output : Nat
  kernel : Nat
  attempts_limit : Nat
  kernel_process_name : String
  attempts : Nat

/-- What an observer of the scheduler sees, in order. -/
inductive Event where
  /-- A task was popped and `task::run` called `kernel->process`. -/
  | run (task_id attempts : Nat)
  /-- A call `kernel->notify_complete(task_id)`. -/
  | notify_complete (task_id : Nat)
  /-- A call `executor->add_task(..., attempts, task_id, ...)`. -/
  | add_task (task_id attempts : Nat)
  /-- An exception left `task::run`. -/
  | propagated (task_id : Nat) (e : Exn)
  deriving DecidableEq

/-- The executor with the kernel its tasks point to, and the trace of events so far. -/
structure World where
  kernel : Kernel
  task_queue : List Task
  attempts_limit : Nat
  shutdown : Nat
  trace : List Event

/-- The constructor `task::task(inputs, output, task_id, kernel, attempts_limit, name)`;
the attempt counter of a new task is 0. -/
def task.new (inputs : List CacheData) (output task_id kernel attempts_limit : Nat)
    (kernel_process_name : String) : Task :=
  { inputs := inputs, task_id := task_id, output := output, kernel := kernel,
    attempts_limit := attempts_limit, kernel_process_name := kernel_process_name,
    attempts := 0 }

/-- Modelled from the spec: `executor::add_task(inputs, output, kernel, attempts, task_id,
name)` is declared outside `kernel.cpp`. It "constructs a new Task from the given
inputs/output/kernel/attempts/id/name and pushes it onto the queue"; the new task gets the
executor's attempt limit. -/
def executor.add_task (w : World) (inputs : List CacheData) (output kernel attempts task_id : Nat)
    (kernel_process_name : String) : World :=
  { w with
    task_queue := w.task_queue ++
      [{ inputs := inputs, task_id := task_id, output := output, kernel := kernel,
         attempts_limit := w.attempts_limit, kernel_process_name := kernel_process_name,
         attempts := attempts }]
    trace := w.trace ++ [Event.add_task task_id attempts] }

/-- The call `kernel->notify_complete(task_id)` made by a task. -/
def notify (w : World) (task_id : Nat) : World :=
  { w with
    kernel := kernel.notify_complete w.kernel task_id
    trace := w.trace ++ [Event.notify_complete task_id] }

/-- What `task::run` left behind: the task object, the world, and how the call ended. -/
structure RunResult where
  task : Task
  world : World
  outcome : Outcome

/-- The body of `task::run(stream, executor)` once `kernel->process` has ended as `p`. -/
def task.run_with (t : Task) (p : ProcessResult) (w : World) : RunResult :=
  let t1 : Task := { t with inputs := p.inputs }
  match p.outcome with
  | .returned => { task := t1, world := notify w t1.task_id, outcome := .returned }
  | .undefined => { task := t1, world := w, outcome := .undefined }
  | .raised e =>
    if e.is_rmm_bad_alloc then
      let t2 : Task := { t1 with attempts := (t1.attempts + 1) % 2 ^ 64 }
      if t2.attempts < t2.attempts_limit then
        { task := { t2 with inputs := [] }
          world := executor.add_task w t2.inputs t2.output t2.kernel t2.attempts t2.task_id
            t2.kernel_process_name
          outcome := .returned }
      else
        { task := t2, world := w, outcome := .raised e }
    else if e.is_std_exception then
      { task := t1, world := w, outcome := .raised e }
    else
      { task := t1, world := w, outcome := .raised e }

/-- The function `task::run(stream, executor)`. -/
def task.run (do_process : DoProcess) (t : Task) (stream : Nat) (w : World) : RunResult :=
  task.run_with t (kernel.process do_process t.inputs t.output stream t.kernel_process_name) w

/-- One iteration of the loop of `executor::execute`, the pool worker run to its end: pop the
next task and run it; `p` is what `kernel->process` does in that run. With an empty queue
`pop_or_wait` blocks, and with `shutdown` set the loop is over. -/
def executor.step (p : ProcessResult) (w : World) : World :=
  if w.shutdown = 0 then
    match w.task_queue with
    | [] => w
    | cur_task :: rest =>
      let w1 : World :=
        { w with
          task_queue := rest
          trace := w.trace ++ [Event.run cur_task.task_id cur_task.attempts] }
      let r := task.run_with cur_task p w1
      match r.outcome with
      | .raised e =>
        { r.world with trace := r.world.trace ++ [Event.propagated cur_task.task_id e] }
      | _ => r.world
  else w

/-- The loop of `executor::execute` over the outcomes of the successive calls of
`kernel->process`. -/
def executor.execute : List ProcessResult → World → World
  | [], w => w
  | p :: ps, w => executor.execute ps (executor.step p w)

/-- Is the event a run of task `id`? -/
def Event.is_run_of (id : Nat) : Event → Bool
  | .run i _ => i == id
  | _ => false

/-- Is the event a call `notify_complete(id)`? -/
def Event.is_notify_of (id : Nat) : Event → Bool
  | .notify_complete i => i == id
  | _ => false

/-- Is the event a call of `executor->add_task` for task `id`? -/
def Event.is_add_task_of (id : Nat) : Event → Bool
  | .add_task i _ => i == id
  | _ => false

/-- Is the event an exception leaving `task::run`, for any task? -/
def Event.is_propagated : Event → Bool
  | .propagated _ _ => true
  | _ => false

/-- The executor at the start: one task queued, nothing observed yet, not shut down. -/
def World.start (k : Kernel) (t : Task) (attempts_limit : Nat) : World :=
  { kernel := k, task_queue := [t], attempts_limit := attempts_limit, shutdown := 0,
    trace := [] }

end execution
end ral

/-! ## Memory resources -/

/-- A finite, non-negative `float` value `m * 2 ^ e`. Exponent range (overflow to infinity,
subnormals) is not modelled; the 24-bit significand is. -/
structure F32 where
  m : Nat
  e : Int
  deriving DecidableEq

/-- Rounding to a 24-bit significand, to nearest, ties to even. -/
def F32.round (x : F32) : F32 :=
  if x.m < 2 ^ 24 then x
  else
    let sh := Nat.log2 x.m - 23
    let q := x.m / 2 ^ sh
    let r := x.m % 2 ^ sh
    let half := 2 ^ (sh - 1)
    let q1 := if half < r ∨ (r = half ∧ q % 2 = 1) then q + 1 else q
    { m := q1, e := x.e + (sh : Int) }

/-- The conversion `std::size_t` to `float`. -/
def F32.ofSizeT (n : Nat) : F32 := F32.round { m := n, e := 0 }

/-- The product of two `float` values. -/
def F32.mul (a b : F32) : F32 := F32.round { m := a.m * b.m, e := a.e + b.e }

/-- The conversion `float` to `std::size_t`: truncation. (Undefined in C++ when the value
does not fit; every threshold below 1 keeps it under `2 ^ 64`.) -/
def F32.toSizeT (x : F32) : Nat :=
  match x.e with
  | Int.ofNat k => x.m * 2 ^ k
  | Int.negSucc k => x.m / 2 ^ (k + 1)

/-- The default `custom_threshold = 0.75` of the three constructors: `3 * 2 ^ (-2)`. -/
def default_threshold : F32 := { m := 3, e := -2 }

/-- The statement `memory_limit = custom_threshold * size;` with `size` a `std::size_t`. -/
def threshold_times (custom_threshold : F32) (size : Nat) : Nat :=
  F32.toSizeT (F32.mul custom_threshold (F32.ofSizeT size))

/-- The struct `rmmOptions_t` of `rmm/rmm_api.h`; `allocation_mode` is the value of the enum
`rmmAllocationMode_t`. -/
structure rmmOptions_t where
  allocation_mode : Nat
  initial_pool_size : Nat
  enable_logging : Bool
  devices : List Int
  deriving DecidableEq

/-- The enumerator `CudaDefaultAllocation = 0` of `rmmAllocationMode_t`. -/
def CudaDefaultAllocation : Nat := 0

/-- The enumerator `PoolAllocation = 1` of `rmmAllocationMode_t`. -/
def PoolAllocation : Nat := 1

/-- The enumerator `CudaManagedMemory = 2` of `rmmAllocationMode_t`. -/
def CudaManagedMemory : Nat := 2

/-- The value-initialised `rmmOptions_t options{}`. -/
def rmmOptions_t.default : rmmOptions_t :=
  { allocation_mode := 0, initial_pool_size := 0, enable_logging := false, devices := [] }

/-- The allocator strategy held in `memory_resource`, by class. -/
inductive device_memory_resource where
  | cnmem_managed_memory_resource
  | cnmem_memory_resource
  | managed_memory_resource
  | cuda_memory_resource
  deriving DecidableEq

/-- The fields of `internal_blazing_device_memory_resource`. -/
structure internal_blazing_device_memory_resource where
  total_memory_size : Nat
  memory_limit : Nat
  used_memory : Nat
  memory_resource : device_memory_resource
  deriving DecidableEq

namespace internal_blazing_device_memory_resource

/-- The exception thrown by the constructor for a pool as large as the device. -/
def pool_error : Exn :=
  { cls := .std_derived "std::runtime_error",
    what := "Cannot allocate this Pool memory size on the GPU." }

/-- The constructor `internal_blazing_device_memory_resource(rmmValues, custom_threshold)`;
`gpuMemorySize` is what `ral::config::gpuMemorySize()` returns. In the inner test
`allocation_mode == CudaManagedMemory | PoolAllocation` the comparison binds tighter than
the bitwise or. -/
def new (gpuMemorySize : Nat) (rmmValues : rmmOptions_t) (custom_threshold : F32) :
    Except Exn internal_blazing_device_memory_resource :=
  let total_memory_size := gpuMemorySize
  let used_memory := 0
  let allocation_mode := rmmValues.allocation_mode
  let limit := threshold_times custom_threshold total_memory_size
  if allocation_mode = (CudaManagedMemory ||| PoolAllocation) ∨ allocation_mode = PoolAllocation then
    if total_memory_size ≤ rmmValues.initial_pool_size then
      .error pool_error
    else if ((if allocation_mode = CudaManagedMemory then 1 else 0) ||| PoolAllocation) ≠ 0 then
      .ok { total_memory_size := total_memory_size, memory_limit := limit,
            used_memory := used_memory,
            memory_resource := .cnmem_managed_memory_resource }
    else
      .ok { total_memory_size := total_memory_size, memory_limit := limit,
            used_memory := used_memory,
            memory_resource := .cnmem_memory_resource }
  else if allocation_mode = CudaManagedMemory then
    .ok { total_memory_size := total_memory_size, memory_limit := limit,
          used_memory := used_memory,
          memory_resource := .managed_memory_resource }
  else
    .ok { total_memory_size := total_memory_size, memory_limit := limit,
          used_memory := used_memory,
          memory_resource := .cuda_memory_resource }

/-- The getter `get_memory_used()`. -/
def get_memory_used (r : internal_blazing_device_memory_resource) : Nat := r.used_memory

/-- The getter `get_total_memory()`. -/
def get_total_memory (r : internal_blazing_device_memory_resource) : Nat := r.total_memory_size

/-- The getter `get_memory_limit()`. -/
def get_memory_limit (r : internal_blazing_device_memory_resource) : Nat := r.memory_limit

/-- The underlying allocator `memory_resource->allocate(bytes, stream)`: strategy, bytes and
stream to the pointer it returns or the exception it throws. -/
abbrev Upstream := device_memory_resource → Nat → Nat → Except Exn Nat

/-- What `do_allocate` did: the resource afterwards, the byte count handed to
`memory_resource->allocate` (`none` when it was not called), and the pointer returned
(0 is `nullptr`) or the exception thrown. -/
structure AllocResult where
  resource : internal_blazing_device_memory_resource
  delegated : Option Nat
  result : Except Exn Nat

/-- The body of `do_allocate(bytes, stream)`. -/
def do_allocate (upstream : Upstream) (r : internal_blazing_device_memory_resource)
    (bytes stream : Nat) : AllocResult :=
  if bytes ≤ 0 then
    { resource := r, delegated := none, result := .ok 0 }
  else
    let r1 := { r with used_memory := (r.used_memory + bytes) % 2 ^ 64 }
    { resource := r1, delegated := some bytes,
      result := upstream r1.memory_resource bytes stream }

/-- What `do_deallocate` did: the resource afterwards, whether the drift message was written
to `std::cerr`, and the byte count handed to `memory_resource->deallocate` (`none` when it
was not called). -/
structure DeallocResult where
  resource : internal_blazing_device_memory_resource
  logged : Bool
  delegated : Option Nat

/-- The body of `do_deallocate(p, bytes, stream)`; the pointer `p = 0` is `nullptr`. -/
def do_deallocate (r : internal_blazing_device_memory_resource) (p bytes : Nat) :
    DeallocResult :=
  if p = 0 ∨ bytes = 0 then
    { resource := r, logged := false, delegated := none }
  else if r.used_memory < bytes then
    { resource := { r with used_memory := 0 }, logged := true, delegated := some bytes }
  else
    { resource := { r with used_memory := r.used_memory - bytes }, logged := false,
      delegated := some bytes }

end internal_blazing_device_memory_resource

/-- The fields of the singleton `blazing_device_memory_resource`, and whether
`rmm::mr::set_default_resource` was given its resource. -/
structure blazing_device_memory_resource where
  registered_streams : List Nat
  options : rmmOptions_t
  is_initialized : Bool
  initialized_resource : Option internal_blazing_device_memory_resource
  default_resource_set : Bool
  deriving DecidableEq

namespace blazing_device_memory_resource

/-- The singleton as `getInstance()` first builds it, from the default member initialisers. -/
def instance0 : blazing_device_memory_resource :=
  { registered_streams := [], options := rmmOptions_t.default, is_initialized := false,
    initialized_resource := none, default_resource_set := false }

/-- The query `isInitialized()`. -/
def isInitialized (s : blazing_device_memory_resource) : Bool := s.is_initialized

/-- The query `getOptions()`. -/
def getOptions (s : blazing_device_memory_resource) : rmmOptions_t := s.options

/-- The body of the member function `initialize(new_options)` (spelled `initialise` here,
the other spelling being reserved); `none` is the null pointer and `gpuMemorySize` what
`ral::config::gpuMemorySize()` returns during the call. -/
def initialise (gpuMemorySize : Nat) (new_options : Option rmmOptions_t)
    (s : blazing_device_memory_resource) : blazing_device_memory_resource × Outcome :=
  if s.isInitialized then (s, .returned)
  else
    let s1 : blazing_device_memory_resource :=
      match new_options with
      | some o => { s with options := o }
      | none => s
    match internal_blazing_device_memory_resource.new gpuMemorySize s1.options
        default_threshold with
    | .error e => (s1, .raised e)
    | .ok r =>
      ({ s1 with initialized_resource := some r, default_resource_set := true,
                 is_initialized := true }, .returned)

/-- The body of `finalize()`. -/
def finalize (s : blazing_device_memory_resource) : blazing_device_memory_resource :=
  if s.isInitialized then
    { s with registered_streams := [], initialized_resource := none, is_initialized := false }
  else s

/-- The getter `get_memory_used()`; `none` when `initialized_resource` is null. -/
def get_memory_used (s : blazing_device_memory_resource) : Option Nat :=
  s.initialized_resource.map (fun r => r.get_memory_used)

/-- The getter `get_total_memory()`; `none` when `initialized_resource` is null. -/
def get_total_memory (s : blazing_device_memory_resource) : Option Nat :=
  s.initialized_resource.map (fun r => r.get_total_memory)

/-- The getter `get_memory_limit()`; `none` when `initialized_resource` is null. -/
def get_memory_limit (s : blazing_device_memory_resource) : Option Nat :=
  s.initialized_resource.map (fun r => r.get_memory_limit)

end blazing_device_memory_resource

/-- The two fields of `struct sysinfo` the host and disk tiers read. -/
structure sysinfo where
  totalram : Nat
  freeram : Nat

/-- The three fields of `struct statvfs` the disk tier reads. -/
structure statvfs where
  f_blocks : Nat
  f_frsize : Nat
  f_bfree : Nat

/-- Subtraction of `std::size_t` values. -/
def size_sub (a b : Nat) : Nat := (a % 2 ^ 64 + 2 ^ 64 - b % 2 ^ 64) % 2 ^ 64

/-- The fields of `blazing_host_memory_mesource`. -/
structure blazing_host_memory_mesource where
  memory_limit : Nat
  total_memory_size : Nat
  used_memory_size : Nat
  deriving DecidableEq

namespace blazing_host_memory_mesource

/-- The constructor `blazing_host_memory_mesource(custom_threshold)`; `si` is what
`sysinfo` fills in. -/
def new (si : sysinfo) (custom_threshold : F32) : blazing_host_memory_mesource :=
  let total_memory_size := si.totalram % 2 ^ 64
  let used_memory_size := size_sub total_memory_size si.freeram
  { memory_limit := threshold_times custom_threshold used_memory_size,
    total_memory_size := total_memory_size, used_memory_size := used_memory_size }

/-- The body of `allocate(bytes)`. -/
def allocate (r : blazing_host_memory_mesource) (bytes : Nat) : blazing_host_memory_mesource :=
  { r with used_memory_size := (r.used_memory_size + bytes) % 2 ^ 64 }

/-- The body of `deallocate(bytes)`. -/
def deallocate (r : blazing_host_memory_mesource) (bytes : Nat) : blazing_host_memory_mesource :=
  { r with used_memory_size := size_sub r.used_memory_size bytes }

/-- The body of `get_from_driver_available_memory()`: the resource afterwards and the value
returned. -/
def get_from_driver_available_memory (si : sysinfo) (r : blazing_host_memory_mesource) :
    blazing_host_memory_mesource × Nat :=
  let total_memory_size := si.totalram % 2 ^ 64
  let used_memory_size := size_sub total_memory_size si.freeram
  ({ r with total_memory_size := total_memory_size, used_memory_size := used_memory_size },
    used_memory_size)

/-- The getter `get_memory_used()`. -/
def get_memory_used (r : blazing_host_memory_mesource) : Nat := r.used_memory_size

/-- The getter `get_total_memory()`. -/
def get_total_memory (r : blazing_host_memory_mesource) : Nat := r.total_memory_size

/-- The getter `get_memory_limit()`. -/
def get_memory_limit (r : blazing_host_memory_mesource) : Nat := r.memory_limit

end blazing_host_memory_mesource

/-- The fields of `blazing_disk_memory_resource`. -/
structure blazing_disk_memory_resource where
  total_memory_size : Nat
  memory_limit : Nat
  used_memory_size : Nat
  deriving DecidableEq

namespace blazing_disk_memory_resource

/-- The constructor `blazing_disk_memory_resource(custom_threshold)`; `stat_disk` is what
`statvfs` fills in for the root of the filesystem. -/
def new (stat_disk : statvfs) (custom_threshold : F32) : blazing_disk_memory_resource :=
  let total_memory_size := (stat_disk.f_blocks * stat_disk.f_frsize) % 2 ^ 64
  let available_disk_size := (stat_disk.f_bfree * stat_disk.f_frsize) % 2 ^ 64
  let used_memory_size := size_sub total_memory_size available_disk_size
  { total_memory_size := total_memory_size,
    memory_limit := threshold_times custom_threshold total_memory_size,
    used_memory_size := used_memory_size }

/-- The body of `get_from_driver_available_memory()`, which calls `sysinfo`: the resource
afterwards and the value returned. -/
def get_from_driver_available_memory (si : sysinfo) (r : blazing_disk_memory_resource) :
    blazing_disk_memory_resource × Nat :=
  let total_memory_size := si.totalram % 2 ^ 64
  let used_memory_size := size_sub total_memory_size si.freeram
  ({ r with total_memory_size := total_memory_size, used_memory_size := used_memory_size },
    used_memory_size)

/-- The getter `get_memory_used()`. -/
def get_memory_used (r : blazing_disk_memory_resource) : Nat := r.used_memory_size

/-- The getter `get_total_memory()`. -/
def get_total_memory (r : blazing_disk_memory_resource) : Nat := r.total_memory_size

/-- The getter `get_memory_limit()`. -/
def get_memory_limit (r : blazing_disk_memory_resource) : Nat := r.memory_limit

end blazing_disk_memory_resource

/-! ## Concrete inputs -/

namespace ral
namespace execution

open ral.cache

/-- An allocation failure as rmm throws it. -/
def sample_bad_alloc : Exn := { cls := .rmm_bad_alloc, what := "std::bad_alloc" }

/-- A failure that is not an allocation failure. -/
def sample_runtime_error : Exn :=
  { cls := .std_derived "std::runtime_error", what := "column type mismatch" }

/-- A call of `kernel->process` that throws `rmm::bad_alloc`. -/
def sample_failure : ProcessResult := { outcome := .raised sample_bad_alloc, inputs := [] }

/-- A call of `kernel->process` that returns. -/
def sample_success : ProcessResult := { outcome := .returned, inputs := [] }

/-- A kernel with task 7 in flight. -/
def sample_kernel : Kernel := { kernel_id := 1, tasks := [7] }

/-- Task 7 of kernel 1, new, with the given attempt limit. -/
def sample_task (attempts_limit : Nat) : Task :=
  task.new [] 0 7 1 attempts_limit "compute"

end execution
end ral

namespace ral
namespace cache

/-- A host-resident handle whose `decache()` throws `rmm::bad_alloc`. -/
def sample_bad_input : CacheData :=
  { type := .CPU, decache := .error { cls := .rmm_bad_alloc, what := "std::bad_alloc" },
    decache_calls := 0, set_data_log := [] }

/-- A host-resident handle whose `decache()` throws a `std::runtime_error`. -/
def sample_broken_input : CacheData :=
  { type := .CPU,
    decache := .error { cls := .std_derived "std::runtime_error", what := "bad file" },
    decache_calls := 0, set_data_log := [] }

/-- A device-resident handle whose `decache()` returns table 5. -/
def sample_gpu_input : CacheData :=
  { type := .GPU, decache := .ok (some 5), decache_calls := 0, set_data_log := [] }

/-- A transform that never throws and takes its tables by value. -/
def sample_do_process_fine : DoProcess :=
  fun _ _ _ _ => { raised := none, input_gpu_after := [] }

/-- A transform that takes its tables by value, so that the caller's vector is empty after
the call, and throws a `std::runtime_error`. -/
def sample_do_process_by_value : DoProcess :=
  fun _ _ _ _ =>
    { raised := some { cls := .std_derived "std::runtime_error", what := "join failed" },
      input_gpu_after := [] }

/-- A transform that throws a `std::runtime_error` and leaves the caller's vector as it
was. -/
def sample_do_process_keeping : DoProcess :=
  fun tables _ _ _ =>
    { raised := some { cls := .std_derived "std::runtime_error", what := "join failed" },
      input_gpu_after := tables }

end cache
end ral

/-- An underlying allocator that always returns the block at address 4096. -/
def sample_upstream : internal_blazing_device_memory_resource.Upstream :=
  fun _ _ _ => .ok 4096

/-- A device resource of 1000 bytes with limit 750 and the given bytes in use. -/
def sample_resource (used : Nat) : internal_blazing_device_memory_resource :=
  { total_memory_size := 1000, memory_limit := 750, used_memory := used,
    memory_resource := .cuda_memory_resource }

/-- Options asking for a pool of the given size. -/
def sample_pool_options (initial_pool_size : Nat) : rmmOptions_t :=
  { allocation_mode := PoolAllocation, initial_pool_size := initial_pool_size,
    enable_logging := false, devices := [] }

namespace ral
namespace cache

/-- A call on the in-flight set of a kernel, atomic under `kernel_mutex`. -/
inductive KernelCall where
  | add_task (task_id : Nat)
  | notify_complete (task_id : Nat)
  deriving DecidableEq

/-- The effect of one call on the kernel. -/
def kernel.call (k : Kernel) : KernelCall → Kernel
  | .add_task task_id => kernel.add_task k task_id
  | .notify_complete task_id => kernel.notify_complete k task_id

/-- The effect of a sequence of calls, in the order in which they took the lock. -/
def kernel.calls (k : Kernel) (cs : List KernelCall) : Kernel :=
  cs.foldl kernel.call k

end cache
end ral

/-- A host with 1000 bytes of memory of which 600 are free. -/
def sample_sysinfo : sysinfo := { totalram := 1000, freeram := 600 }

/-- A host with 16000 bytes of memory of which 6000 are free. -/
def sample_sysinfo_large : sysinfo := { totalram := 16000, freeram := 6000 }

/-- A filesystem of 250 blocks of 4 bytes of which 150 are free. -/
def sample_statvfs : statvfs := { f_blocks := 250, f_frsize := 4, f_bfree := 150 }

/-- An underlying allocator that is out of memory. -/
def sample_upstream_failing : internal_blazing_device_memory_resource.Upstream :=
  fun _ _ _ => .error { cls := .rmm_bad_alloc, what := "std::bad_alloc" }

/-- The device singleton, initialized with a pool of 100 bytes on a device of 1000 bytes,
with two streams registered and 40 bytes in use. -/
def sample_singleton : blazing_device_memory_resource :=
  { registered_streams := [1, 2], options := sample_pool_options 100, is_initialized := true,
    initialized_resource :=
      some { total_memory_size := 1000, memory_limit := 750, used_memory := 40,
             memory_resource := .cnmem_managed_memory_resource },
    default_resource_set := true }

namespace ral
namespace cache

/-- Is every `add_task(id)` of the sequence followed, later in the sequence, by a
`notify_complete(id)`? -/
def every_add_is_notified : List KernelCall → Bool
  | [] => true
  | .add_task task_id :: rest =>
    rest.contains (.notify_complete task_id) && every_add_is_notified rest
  | .notify_complete _ :: rest => every_add_is_notified rest

end cache
end ral

/-! ## Theorems: tasks and retries -/

namespace ral
namespace execution

open ral.cache

/-- One iteration of the executor on a task whose `process` throws `rmm::bad_alloc` while
attempts remain: the task is run and queued again with the next attempt count. -/
theorem step_retry (t : Task) (w : World) (p : ProcessResult) (e : Exn)
    (hp : p.outcome = .raised e) (he : e.is_rmm_bad_alloc = true)
    (hq : w.task_queue = [t]) (hs : w.shutdown = 0)
    (hlt : t.attempts + 1 < t.attempts_limit) (h64 : t.attempts_limit < 2 ^ 64) :
    executor.step p w =
      { w with
        task_queue :=
          [{ inputs := p.inputs, task_id := t.task_id, output := t.output, kernel := t.kernel,
             attempts_limit := w.attempts_limit,
             kernel_process_name := t.kernel_process_name, attempts := t.attempts + 1 }]
        trace := w.trace ++ [Event.run t.task_id t.attempts,
                             Event.add_task t.task_id (t.attempts + 1)] } := by
  have hmod : (t.attempts + 1) % 18446744073709551616 = t.attempts + 1 :=
    Nat.mod_eq_of_lt (by norm_num at h64; omega)
  simp [executor.step, hs, hq, task.run_with, hp, he, hmod, hlt, executor.add_task]

/-- One iteration of the executor on a task whose `process` returns: the task is run and the
kernel is notified. -/
theorem step_success (t : Task) (w : World) (p : ProcessResult)
    (hp : p.outcome = .returned) (hq : w.task_queue = [t]) (hs : w.shutdown = 0) :
    executor.step p w =
      { w with
        kernel := kernel.notify_complete w.kernel t.task_id
        task_queue := []
        trace := w.trace ++ [Event.run t.task_id t.attempts,
                             Event.notify_complete t.task_id] } := by
  simp [executor.step, hs, hq, task.run_with, hp, notify]

/-- One iteration of the executor on a task whose `process` throws `rmm::bad_alloc` on its
last attempt: the task is run and the exception leaves `task::run`. -/
theorem step_exhausted (t : Task) (w : World) (p : ProcessResult) (e : Exn)
    (hp : p.outcome = .raised e) (he : e.is_rmm_bad_alloc = true)
    (hq : w.task_queue = [t]) (hs : w.shutdown = 0)
    (hge : t.attempts_limit ≤ t.attempts + 1) (h64 : t.attempts + 1 < 2 ^ 64) :
    executor.step p w =
      { w with
        task_queue := []
        trace := w.trace ++ [Event.run t.task_id t.attempts,
                             Event.propagated t.task_id e] } := by
  have hmod : (t.attempts + 1) % 18446744073709551616 = t.attempts + 1 :=
    Nat.mod_eq_of_lt (by norm_num at h64; omega)
  simp [executor.step, hs, hq, task.run_with, hp, he, hmod, Nat.not_lt.mpr hge]

/-- Running over two lists of outcomes is running over the first, then over the second. -/
theorem execute_append (ps qs : List ProcessResult) (w : World) :
    executor.execute (ps ++ qs) w = executor.execute qs (executor.execute ps w) := by
  induction ps generalizing w with
  | nil => rfl
  | cons p ps ih => simp [executor.execute, ih]

/-- A run of failed attempts that all stay below the limit: every one of them is run once
and resubmitted once, nothing is notified and nothing propagates, and the queue holds the
task with the attempt counter advanced by the number of failures. -/
theorem execute_retries (L : Nat) (h64 : L < 2 ^ 64) :
    ∀ (fails : List ProcessResult) (t : Task) (w : World),
      (∀ p ∈ fails, ∃ e, p.outcome = .raised e ∧ e.is_rmm_bad_alloc = true) →
      t.attempts + fails.length < L → t.attempts_limit = L → w.attempts_limit = L →
      w.shutdown = 0 → w.task_queue = [t] →
      ∃ t' : Task,
        (executor.execute fails w).task_queue = [t'] ∧
        t'.attempts = t.attempts + fails.length ∧ t'.attempts_limit = L ∧
        t'.task_id = t.task_id ∧ t'.kernel = t.kernel ∧ t'.output = t.output ∧
        (executor.execute fails w).attempts_limit = L ∧
        (executor.execute fails w).shutdown = 0 ∧
        (executor.execute fails w).kernel = w.kernel ∧
        (executor.execute fails w).trace.countP (Event.is_run_of t.task_id) =
          w.trace.countP (Event.is_run_of t.task_id) + fails.length ∧
        (executor.execute fails w).trace.countP (Event.is_add_task_of t.task_id) =
          w.trace.countP (Event.is_add_task_of t.task_id) + fails.length ∧
        (executor.execute fails w).trace.countP (Event.is_notify_of t.task_id) =
          w.trace.countP (Event.is_notify_of t.task_id) ∧
        (executor.execute fails w).trace.countP Event.is_propagated =
          w.trace.countP Event.is_propagated := by
  intro fails
  induction fails with
  | nil =>
    intro t w _ _ hlim hwl hs hq
    exact ⟨t, by simpa [executor.execute] using hq, by simp, hlim, rfl, rfl, rfl,
      by simpa [executor.execute] using hwl, by simpa [executor.execute] using hs,
      by simp [executor.execute], by simp [executor.execute], by simp [executor.execute],
      by simp [executor.execute], by simp [executor.execute]⟩
  | cons p ps ih =>
    intro t w hf hlen hlim hwl hs hq
    obtain ⟨e, hp, he⟩ := hf p (List.mem_cons_self p ps)
    have hlen' : t.attempts + 1 + ps.length < L := by
      simp only [List.length_cons] at hlen
      omega
    have hstep := step_retry t w p e hp he hq hs (by rw [hlim]; omega) (by rw [hlim]; exact h64)
    obtain ⟨t', h1, h2, h3, h4, h5, h6, h7, h8, h9, h10, h11, h12, h13⟩ :=
      ih { inputs := p.inputs, task_id := t.task_id, output := t.output, kernel := t.kernel,
           attempts_limit := w.attempts_limit,
           kernel_process_name := t.kernel_process_name, attempts := t.attempts + 1 }
        (executor.step p w)
        (fun q hq' => hf q (List.mem_cons_of_mem p hq'))
        hlen' hwl (by rw [hstep]; exact hwl) (by rw [hstep]; exact hs) (by rw [hstep])
    refine ⟨t', h1, ?_, h3, h4, h5, h6, h7, h8, ?_, ?_, ?_, ?_, ?_⟩
    · simp only [List.length_cons]
      simp only [] at h2
      omega
    · rw [show executor.execute (p :: ps) w = executor.execute ps (executor.step p w) from rfl,
        h9, hstep]
    · rw [show executor.execute (p :: ps) w = executor.execute ps (executor.step p w) from rfl]
      simp only [] at h10
      rw [h10, hstep]
      simp [List.countP_append, List.countP_cons, Event.is_run_of]
      omega
    · rw [show executor.execute (p :: ps) w = executor.execute ps (executor.step p w) from rfl]
      simp only [] at h11
      rw [h11, hstep]
      simp [List.countP_append, List.countP_cons, Event.is_add_task_of]
      omega
    · rw [show executor.execute (p :: ps) w = executor.execute ps (executor.step p w) from rfl]
      simp only [] at h12
      rw [h12, hstep]
      simp [List.countP_append, List.countP_cons, Event.is_notify_of]
    · rw [show executor.execute (p :: ps) w = executor.execute ps (executor.step p w) from rfl,
        h13, hstep]
      simp [List.countP_append, List.countP_cons, Event.is_propagated]

/-- C1: with attempt limit `L >= 1`, a new task whose `kernel.process` throws
`rmm::bad_alloc` on its first `k < L` attempts and returns on attempt `k + 1`, each failed
attempt being resubmitted through `executor.add_task`, is run exactly `k + 1` times and
resubmitted `k` times, no exception leaves any run, `notify_complete(task_id)` is called
exactly once and is the last thing that happens, and nothing is left in the queue. -/
theorem retry_until_success (L : Nat) (k : Kernel) (t : Task) (fails : List ProcessResult)
    (ok : ProcessResult) (hL : 1 ≤ L) (h64 : L < 2 ^ 64) (hk : fails.length < L)
    (hfails : ∀ p ∈ fails, ∃ e, p.outcome = .raised e ∧ e.cls = ExnClass.rmm_bad_alloc)
    (hok : ok.outcome = .returned) (h0 : t.attempts = 0) (hlim : t.attempts_limit = L) :
    (executor.execute (fails ++ [ok]) (World.start k t L)).trace.countP
        (Event.is_run_of t.task_id) = fails.length + 1 ∧
    (executor.execute (fails ++ [ok]) (World.start k t L)).trace.countP
        (Event.is_add_task_of t.task_id) = fails.length ∧
    (executor.execute (fails ++ [ok]) (World.start k t L)).trace.countP
        Event.is_propagated = 0 ∧
    (executor.execute (fails ++ [ok]) (World.start k t L)).trace.countP
        (Event.is_notify_of t.task_id) = 1 ∧
    (executor.execute (fails ++ [ok]) (World.start k t L)).trace.getLast? =
        some (Event.notify_complete t.task_id) ∧
    (executor.execute (fails ++ [ok]) (World.start k t L)).task_queue = [] := by
  have _ := hL
  have hf : ∀ p ∈ fails, ∃ e, p.outcome = .raised e ∧ e.is_rmm_bad_alloc = true := by
    intro p hp
    obtain ⟨e, h1, h2⟩ := hfails p hp
    exact ⟨e, h1, by simp [Exn.is_rmm_bad_alloc, h2]⟩
  obtain ⟨t', h1, _, _, h4, _, _, _, h8, _, h10, h11, h12, h13⟩ :=
    execute_retries L h64 fails t (World.start k t L) hf (by rw [h0]; omega) hlim rfl rfl rfl
  have hs := step_success t' (executor.execute fails (World.start k t L)) ok hok h1 h8
  rw [execute_append]
  simp only [executor.execute]
  rw [hs, h4]
  simp only [] at h10 h11 h12 h13 ⊢
  refine ⟨?_, ?_, ?_, ?_, ?_, ?_⟩
  · rw [List.countP_append, h10]
    simp [World.start, List.countP_cons, Event.is_run_of]
  · rw [List.countP_append, h11]
    simp [World.start, List.countP_cons, Event.is_add_task_of]
  · rw [List.countP_append, h13]
    simp [World.start, List.countP_cons, Event.is_propagated]
  · rw [List.countP_append, h12]
    simp [World.start, List.countP_cons, Event.is_notify_of]
  · simp
  · trivial

/-- C1, at `L = 3` and `k = 2`: three runs, two resubmissions, one `notify_complete` at the
end. -/
theorem retry_until_success_witness :
    (executor.execute ([sample_failure, sample_failure] ++ [sample_success])
        (World.start sample_kernel (sample_task 3) 3)).trace.countP (Event.is_run_of 7) = 3 ∧
    (executor.execute ([sample_failure, sample_failure] ++ [sample_success])
        (World.start sample_kernel (sample_task 3) 3)).trace.countP
        (Event.is_add_task_of 7) = 2 ∧
    (executor.execute ([sample_failure, sample_failure] ++ [sample_success])
        (World.start sample_kernel (sample_task 3) 3)).trace.countP Event.is_propagated = 0 ∧
    (executor.execute ([sample_failure, sample_failure] ++ [sample_success])
        (World.start sample_kernel (sample_task 3) 3)).trace.countP
        (Event.is_notify_of 7) = 1 ∧
    (executor.execute ([sample_failure, sample_failure] ++ [sample_success])
        (World.start sample_kernel (sample_task 3) 3)).trace.getLast? =
        some (Event.notify_complete 7) ∧
    (executor.execute ([sample_failure, sample_failure] ++ [sample_success])
        (World.start sample_kernel (sample_task 3) 3)).task_queue = [] :=
  retry_until_success 3 sample_kernel (sample_task 3) [sample_failure, sample_failure]
    sample_success (by decide) (by norm_num) (by decide)
    (by
      intro p hp
      simp only [List.mem_cons, List.mem_singleton, List.not_mem_nil, or_false, or_self] at hp
      subst hp
      exact ⟨sample_bad_alloc, rfl, rfl⟩)
    rfl rfl rfl

/-- C2: with attempt limit `L >= 1`, a new task whose `kernel.process` throws
`rmm::bad_alloc` on every attempt is run exactly `L` times, with `L - 1` resubmissions
through `executor.add_task`; the `L`-th run lets the exception thrown in that run leave
`task::run`, `notify_complete` is never called for the task, and nothing is left in the
queue. -/
theorem retries_exhausted (L : Nat) (k : Kernel) (t : Task) (fails : List ProcessResult)
    (last : ProcessResult) (e : Exn) (hL : 1 ≤ L) (h64 : L < 2 ^ 64)
    (hlen : fails.length = L)
    (hfails : ∀ p ∈ fails, ∃ e, p.outcome = .raised e ∧ e.cls = ExnClass.rmm_bad_alloc)
    (hlast : fails.getLast? = some last) (he : last.outcome = .raised e)
    (h0 : t.attempts = 0) (hlim : t.attempts_limit = L) :
    (executor.execute fails (World.start k t L)).trace.countP
        (Event.is_run_of t.task_id) = L ∧
    (executor.execute fails (World.start k t L)).trace.countP
        (Event.is_add_task_of t.task_id) = L - 1 ∧
    (executor.execute fails (World.start k t L)).trace.getLast? =
        some (Event.propagated t.task_id e) ∧
    (executor.execute fails (World.start k t L)).trace.countP Event.is_propagated = 1 ∧
    (executor.execute fails (World.start k t L)).trace.countP
        (Event.is_notify_of t.task_id) = 0 ∧
    (executor.execute fails (World.start k t L)).task_queue = [] := by
  have _ := hL
  obtain ⟨init, rfl⟩ := List.getLast?_eq_some_iff.mp hlast
  have hlen' : init.length + 1 = L := by simpa using hlen
  have hf : ∀ p ∈ init, ∃ e, p.outcome = .raised e ∧ e.is_rmm_bad_alloc = true := by
    intro p hp
    obtain ⟨e, h1, h2⟩ := hfails p (List.mem_append_left _ hp)
    exact ⟨e, h1, by simp [Exn.is_rmm_bad_alloc, h2]⟩
  have hbad : e.is_rmm_bad_alloc = true := by
    obtain ⟨e', h1, h2⟩ := hfails last (List.mem_append_right _ (List.mem_singleton_self _))
    rw [he] at h1
    cases h1
    simp [Exn.is_rmm_bad_alloc, h2]
  obtain ⟨t', h1, h2, h3, h4, _, _, _, h8, _, h10, h11, h12, h13⟩ :=
    execute_retries L h64 init t (World.start k t L) hf (by rw [h0]; omega) hlim rfl rfl rfl
  have hs := step_exhausted t' (executor.execute init (World.start k t L)) last e he hbad h1 h8
    (by rw [h3, h2, h0]; omega) (by rw [h2, h0]; omega)
  rw [execute_append]
  simp only [executor.execute]
  rw [hs, h4]
  simp only [] at h10 h11 h12 h13 ⊢
  refine ⟨?_, ?_, ?_, ?_, ?_, ?_⟩
  · rw [List.countP_append, h10]
    simp [World.start, List.countP_cons, Event.is_run_of, hlen']
  · rw [List.countP_append, h11]
    simp [World.start, List.countP_cons, Event.is_add_task_of]
    omega
  · simp
  · rw [List.countP_append, h13]
    simp [World.start, List.countP_cons, Event.is_propagated]
  · rw [List.countP_append, h12]
    simp [World.start, List.countP_cons, Event.is_notify_of]
  · trivial

/-- C2, at `L = 1`: one run, no resubmission, the allocation failure leaves `task::run`
and `notify_complete` is not called. -/
theorem retries_exhausted_witness :
    (executor.execute [sample_failure] (World.start sample_kernel (sample_task 1) 1)).trace
      = [Event.run 7 0, Event.propagated 7 sample_bad_alloc] ∧
    (executor.execute [sample_failure]
        (World.start sample_kernel (sample_task 1) 1)).trace.countP (Event.is_run_of 7) = 1 ∧
    (executor.execute [sample_failure]
        (World.start sample_kernel (sample_task 1) 1)).trace.countP
        (Event.is_add_task_of 7) = 0 ∧
    (executor.execute [sample_failure]
        (World.start sample_kernel (sample_task 1) 1)).trace.countP
        (Event.is_notify_of 7) = 0 :=
  have h := retries_exhausted 1 sample_kernel (sample_task 1) [sample_failure] sample_failure
    sample_bad_alloc (by decide) (by norm_num) rfl
    (by
      intro p hp
      simp only [List.mem_singleton] at hp
      subst hp
      exact ⟨sample_bad_alloc, rfl, rfl⟩)
    rfl rfl rfl rfl
  ⟨by decide, h.1, h.2.1, h.2.2.2.2.1⟩

/-- C3: whatever the attempt counter and the limit, when `kernel.process` throws an
exception that is not `rmm::bad_alloc`, `task::run` lets that same exception out, leaves the
attempt counter as it was, and leaves the executor and the kernel untouched: no
`executor.add_task`, no `kernel.notify_complete`. The same holds of `task::run` on top of
`kernel::process`. -/
theorem run_other_error_propagates (t : Task) (p : ProcessResult) (w : World) (e : Exn)
    (hp : p.outcome = .raised e) (he : e.cls ≠ ExnClass.rmm_bad_alloc) :
    (task.run_with t p w).outcome = .raised e ∧
    (task.run_with t p w).task.attempts = t.attempts ∧
    (task.run_with t p w).world = w ∧
    (∀ (do_process : DoProcess) (stream : Nat),
      (kernel.process do_process t.inputs t.output stream t.kernel_process_name).outcome =
        .raised e →
      (task.run do_process t stream w).outcome = .raised e ∧
      (task.run do_process t stream w).task.attempts = t.attempts ∧
      (task.run do_process t stream w).world = w) := by
  have hb : e.is_rmm_bad_alloc = false := by
    unfold Exn.is_rmm_bad_alloc
    split
    · next h => exact absurd h he
    · rfl
  have key : ∀ q : ProcessResult, q.outcome = .raised e →
      (task.run_with t q w).outcome = .raised e ∧
      (task.run_with t q w).task.attempts = t.attempts ∧
      (task.run_with t q w).world = w := by
    intro q hq
    simp [task.run_with, hq, hb]
  exact ⟨(key p hp).1, (key p hp).2.1, (key p hp).2.2, fun dp stream h => key _ h⟩

/-- C3, on a task at attempt 4 of 9 whose `process` throws a `std::runtime_error`. -/
theorem run_other_error_propagates_witness :
    (task.run_with { sample_task 9 with attempts := 4 }
        { outcome := .raised sample_runtime_error, inputs := [] }
        (World.start sample_kernel (sample_task 9) 9)).outcome = .raised sample_runtime_error ∧
    (task.run_with { sample_task 9 with attempts := 4 }
        { outcome := .raised sample_runtime_error, inputs := [] }
        (World.start sample_kernel (sample_task 9) 9)).task.attempts = 4 ∧
    (task.run_with { sample_task 9 with attempts := 4 }
        { outcome := .raised sample_runtime_error, inputs := [] }
        (World.start sample_kernel (sample_task 9) 9)).world =
      World.start sample_kernel (sample_task 9) 9 :=
  have h := run_other_error_propagates { sample_task 9 with attempts := 4 }
    { outcome := .raised sample_runtime_error, inputs := [] }
    (World.start sample_kernel (sample_task 9) 9) sample_runtime_error rfl (by decide)
  ⟨h.1, h.2.1, h.2.2.1⟩

/-- C4: an `rmm::bad_alloc` thrown by `decache()` leaves `kernel::process` as a plain
`std::exception` (the handler catches by value and throws its copy), so `task::run` does
not take it for an allocation failure: with attempts left it neither counts an attempt nor
resubmits, and the caller gets the `std::exception`. A `std::runtime_error` thrown by
`decache()` reaches the caller of the task as a `std::exception` too, its message gone. -/
theorem decache_error_loses_its_class :
    (kernel.process sample_do_process_fine [sample_bad_input] 0 0 "compute").outcome =
      .raised { cls := .std_exception, what := "std::exception" } ∧
    (task.run sample_do_process_fine { sample_task 3 with inputs := [sample_bad_input] } 0
        (World.start sample_kernel (sample_task 3) 3)).outcome =
      .raised { cls := .std_exception, what := "std::exception" } ∧
    (task.run sample_do_process_fine { sample_task 3 with inputs := [sample_bad_input] } 0
        (World.start sample_kernel (sample_task 3) 3)).task.attempts = 0 ∧
    (task.run sample_do_process_fine { sample_task 3 with inputs := [sample_bad_input] } 0
        (World.start sample_kernel (sample_task 3) 3)).world.trace = [] ∧
    (task.run sample_do_process_fine { sample_task 3 with inputs := [sample_broken_input] } 0
        (World.start sample_kernel (sample_task 3) 3)).outcome =
      .raised { cls := .std_exception, what := "std::exception" } := by
  refine ⟨rfl, rfl, rfl, rfl, rfl⟩

/-- C5: when `do_process` takes the tables by value and throws, the handler reads
`input_gpu[0]` from the vector that `std::move` emptied: the device-resident input is not
given the table its `decache()` returned, the behaviour is undefined. Only when the call
leaves the vector as it was does the input get that table back and the exception of
`do_process` leave `kernel::process`. -/
theorem restore_reads_moved_from_vector :
    (kernel.process sample_do_process_by_value [sample_gpu_input] 0 0 "compute").outcome =
      .undefined ∧
    (kernel.process sample_do_process_by_value [sample_gpu_input] 0 0 "compute").inputs.map
      (fun c => c.set_data_log) = [[]] ∧
    (kernel.process sample_do_process_keeping [sample_gpu_input] 0 0 "compute").outcome =
      .raised { cls := .std_derived "std::runtime_error", what := "join failed" } ∧
    (kernel.process sample_do_process_keeping [sample_gpu_input] 0 0 "compute").inputs.map
      (fun c => c.set_data_log) = [[some 5]] := by
  refine ⟨rfl, rfl, rfl, rfl⟩

end execution
end ral

/-! ## Theorems: memory resources -/

namespace internal_blazing_device_memory_resource

/-- C6: on a device resource with `used = 0`, whatever its total and its limit and whatever
the underlying allocator answers, `do_allocate(b1)` then `do_allocate(b2)` with
`b1 + b2 < 2 ^ 64` leave `get_memory_used() = b1 + b2`; and on any resource one
`do_allocate(b)` raises the counter by exactly `b` as long as the sum fits `std::size_t`. -/
theorem allocate_adds_exactly (upstream : Upstream) (r : internal_blazing_device_memory_resource)
    (b1 b2 s1 s2 : Nat) (hfresh : r.used_memory = 0) (hsum : b1 + b2 < 2 ^ 64) :
    (do_allocate upstream (do_allocate upstream r b1 s1).resource b2 s2).resource.get_memory_used
      = b1 + b2 ∧
    (∀ (r1 : internal_blazing_device_memory_resource) (b s : Nat),
      r1.used_memory + b < 2 ^ 64 →
      (do_allocate upstream r1 b s).resource.get_memory_used = r1.used_memory + b) := by
  have one : ∀ (r1 : internal_blazing_device_memory_resource) (b s : Nat),
      r1.used_memory + b < 2 ^ 64 →
      (do_allocate upstream r1 b s).resource.get_memory_used = r1.used_memory + b := by
    intro r1 b s h
    unfold do_allocate get_memory_used
    split
    · next hb =>
      have : b = 0 := Nat.le_zero.mp hb
      simp [this]
    · simp only []
      exact Nat.mod_eq_of_lt h
  refine ⟨?_, one⟩
  have h1 := one r b1 s1 (by rw [hfresh]; omega)
  unfold get_memory_used at h1
  rw [one _ b2 s2 (by rw [h1, hfresh]; omega), h1, hfresh]
  omega

/-- C6, on a resource of 1000 bytes with limit 750: 300 then 900 bytes give 1200 in use. -/
theorem allocate_adds_exactly_witness :
    (do_allocate sample_upstream (do_allocate sample_upstream (sample_resource 0) 300 0).resource
        900 0).resource.get_memory_used = 300 + 900 ∧
    (do_allocate sample_upstream (sample_resource 40) 2 0).resource.get_memory_used = 40 + 2 :=
  ⟨(allocate_adds_exactly sample_upstream (sample_resource 0) 300 900 0 0 rfl (by norm_num)).1,
   (allocate_adds_exactly sample_upstream (sample_resource 0) 300 900 0 0 rfl (by norm_num)).2
      (sample_resource 40) 2 0 (by norm_num [sample_resource])⟩

/-- C7: `do_deallocate(p, bytes)` of a non-null block with `bytes` above the used counter
leaves `get_memory_used() = 0`, which is not the wrapped difference, and with `bytes` at
most the used counter leaves exactly the difference. The function has no path that
throws. -/
theorem deallocate_clamps_at_zero (r : internal_blazing_device_memory_resource)
    (p bytes : Nat) (hp : p ≠ 0) :
    (r.used_memory < bytes →
      (do_deallocate r p bytes).resource.get_memory_used = 0 ∧
      (bytes < 2 ^ 64 →
        (do_deallocate r p bytes).resource.get_memory_used ≠ size_sub r.used_memory bytes)) ∧
    (bytes ≤ r.used_memory →
      (do_deallocate r p bytes).resource.get_memory_used = r.used_memory - bytes) := by
  constructor
  · intro h
    have hb : bytes ≠ 0 := by omega
    have h0 : (do_deallocate r p bytes).resource.get_memory_used = 0 := by
      simp [do_deallocate, get_memory_used, hp, hb, h]
    refine ⟨h0, fun h64 => ?_⟩
    rw [h0]
    unfold size_sub
    have h1 : r.used_memory % 2 ^ 64 = r.used_memory := Nat.mod_eq_of_lt (by omega)
    have h2 : bytes % 2 ^ 64 = bytes := Nat.mod_eq_of_lt h64
    rw [h1, h2, Nat.mod_eq_of_lt (by omega)]
    omega
  · intro h
    by_cases hb : bytes = 0
    · simp [do_deallocate, get_memory_used, hb]
    · simp [do_deallocate, get_memory_used, hp, hb, Nat.not_lt.mpr h]

/-- C7, with 100 bytes in use: freeing 250 leaves 0, freeing 40 leaves 60. -/
theorem deallocate_clamps_at_zero_witness :
    (do_deallocate (sample_resource 100) 4096 250).resource.get_memory_used = 0 ∧
    (do_deallocate (sample_resource 100) 4096 40).resource.get_memory_used = 100 - 40 :=
  ⟨((deallocate_clamps_at_zero (sample_resource 100) 4096 250 (by decide)).1
      (by decide)).1,
   (deallocate_clamps_at_zero (sample_resource 100) 4096 40 (by decide)).2 (by decide)⟩

/-- C8: a device resource built with total capacity 1000 and threshold 0.75 has
`get_memory_limit() = 750`, and `do_allocate(900)` on it hands the request to the underlying
allocator, returns what that allocator returns and leaves `get_memory_used() = 900`. In
general, for `bytes > 0`, `do_allocate` calls the underlying allocator and sets the used
counter to a value that depends on the old counter and on `bytes` only, not on the limit or
the total. -/
theorem limit_is_not_enforced (upstream : Upstream) (options : rmmOptions_t)
    (r : internal_blazing_device_memory_resource)
    (hnew : new 1000 options default_threshold = .ok r) :
    r.get_memory_limit = 750 ∧ r.get_memory_used = 0 ∧
    (∀ stream : Nat,
      (do_allocate upstream r 900 stream).resource.get_memory_used = 900 ∧
      (do_allocate upstream r 900 stream).delegated = some 900 ∧
      (do_allocate upstream r 900 stream).result = upstream r.memory_resource 900 stream) ∧
    (∀ (r1 r2 : internal_blazing_device_memory_resource) (bytes stream : Nat),
      0 < bytes → r1.used_memory = r2.used_memory →
      (do_allocate upstream r1 bytes stream).resource.get_memory_used =
        (r1.used_memory + bytes) % 2 ^ 64 ∧
      (do_allocate upstream r1 bytes stream).resource.get_memory_used =
        (do_allocate upstream r2 bytes stream).resource.get_memory_used ∧
      (do_allocate upstream r1 bytes stream).resource.get_memory_limit = r1.get_memory_limit ∧
      (do_allocate upstream r1 bytes stream).delegated = some bytes) := by
  have hfields : r.memory_limit = 750 ∧ r.used_memory = 0 := by
    unfold new at hnew
    have hl : threshold_times default_threshold 1000 = 750 := by decide
    simp only [hl] at hnew
    split at hnew
    · split at hnew
      · cases hnew
      · split at hnew <;> (cases hnew; exact ⟨rfl, rfl⟩)
    · split at hnew <;> (cases hnew; exact ⟨rfl, rfl⟩)
  refine ⟨hfields.1, hfields.2, ?_, ?_⟩
  · intro stream
    simp [do_allocate, get_memory_used, hfields.2]
  · intro r1 r2 bytes stream hb hu
    have hb0 : ¬ bytes ≤ 0 := by omega
    simp [do_allocate, get_memory_used, get_memory_limit, hb0, hu]

/-- C8, with the default options. -/
theorem limit_is_not_enforced_witness :
    (do_allocate sample_upstream
      { total_memory_size := 1000, memory_limit := 750, used_memory := 0,
        memory_resource := .cuda_memory_resource } 900 0).resource.get_memory_used = 900 ∧
    (do_allocate sample_upstream (sample_resource 700) 100 0).resource.get_memory_used =
      (700 + 100) % 2 ^ 64 :=
  ⟨((limit_is_not_enforced sample_upstream rmmOptions_t.default
      { total_memory_size := 1000, memory_limit := 750, used_memory := 0,
        memory_resource := .cuda_memory_resource } rfl).2.2.1 0).1,
   ((limit_is_not_enforced sample_upstream rmmOptions_t.default
      { total_memory_size := 1000, memory_limit := 750, used_memory := 0,
        memory_resource := .cuda_memory_resource } rfl).2.2.2
      (sample_resource 700) (sample_resource 700) 100 0 (by decide) rfl).1⟩

/-- C10: the constructor throws exactly when the allocation mode is `PoolAllocation` or
`CudaManagedMemory | PoolAllocation` and `initial_pool_size` is at least the device capacity,
what it throws then is the pool-size error, and in every other case it builds a resource
with `used = 0`. -/
theorem construction_fails_iff (gpuMemorySize : Nat) (options : rmmOptions_t)
    (custom_threshold : F32) :
    ((∃ e, new gpuMemorySize options custom_threshold = .error e) ↔
      ((options.allocation_mode = PoolAllocation ∨
          options.allocation_mode = (CudaManagedMemory ||| PoolAllocation)) ∧
        gpuMemorySize ≤ options.initial_pool_size)) ∧
    (∀ e, new gpuMemorySize options custom_threshold = .error e → e = pool_error) ∧
    (¬ ((options.allocation_mode = PoolAllocation ∨
          options.allocation_mode = (CudaManagedMemory ||| PoolAllocation)) ∧
        gpuMemorySize ≤ options.initial_pool_size) →
      ∃ r, new gpuMemorySize options custom_threshold = .ok r ∧ r.get_memory_used = 0) := by
  by_cases hmode : options.allocation_mode = (CudaManagedMemory ||| PoolAllocation) ∨
      options.allocation_mode = PoolAllocation
  · by_cases hsize : gpuMemorySize ≤ options.initial_pool_size
    · have hnew : new gpuMemorySize options custom_threshold = .error pool_error := by
        simp only [new, hmode, hsize, if_true]
      refine ⟨⟨fun _ => ⟨hmode.symm, hsize⟩, fun _ => ⟨_, hnew⟩⟩, ?_, ?_⟩
      · intro e he
        rw [hnew] at he
        cases he
        rfl
      · intro h
        exact absurd ⟨hmode.symm, hsize⟩ h
    · have hnew : ∃ r, new gpuMemorySize options custom_threshold = .ok r ∧
          r.get_memory_used = 0 := by
        simp only [new, hmode, hsize, if_true, if_false]
        split <;> exact ⟨_, rfl, rfl⟩
      obtain ⟨r, hr, hu⟩ := hnew
      refine ⟨⟨?_, fun h => absurd h.2 hsize⟩, ?_, fun _ => ⟨r, hr, hu⟩⟩
      · rintro ⟨e, he⟩
        rw [hr] at he
        cases he
      · intro e he
        rw [hr] at he
        cases he
  · have hnew : ∃ r, new gpuMemorySize options custom_threshold = .ok r ∧
        r.get_memory_used = 0 := by
      simp only [new, hmode, if_false]
      split <;> exact ⟨_, rfl, rfl⟩
    obtain ⟨r, hr, hu⟩ := hnew
    refine ⟨⟨?_, fun h => absurd h.1.symm hmode⟩, ?_, fun _ => ⟨r, hr, hu⟩⟩
    · rintro ⟨e, he⟩
      rw [hr] at he
      cases he
    · intro e he
      rw [hr] at he
      cases he

end internal_blazing_device_memory_resource

namespace blazing_device_memory_resource

/-- C9: once `initialize(c1)` has succeeded on a singleton that was not initialized,
`isInitialized()` is true and `getOptions()` is `c1`; and on every initialized singleton,
whatever its resource and counters have become, `initialize(c2)` with any `c2` (null
included) and any device returns normally and leaves every field as it was. -/
theorem initialise_twice_is_noop (cap1 cap2 : Nat) (c1 : rmmOptions_t)
    (c2 : Option rmmOptions_t) (s0 s1 : blazing_device_memory_resource)
    (h0 : s0.isInitialized = false) (h1 : initialise cap1 (some c1) s0 = (s1, .returned)) :
    s1.isInitialized = true ∧ s1.getOptions = c1 ∧
    initialise cap2 c2 s1 = (s1, .returned) ∧
    (∀ s : blazing_device_memory_resource, s.isInitialized = true →
      initialise cap2 c2 s = (s, .returned) ∧
      (initialise cap2 c2 s).1.getOptions = s.getOptions ∧
      (initialise cap2 c2 s).1.get_memory_used = s.get_memory_used ∧
      (initialise cap2 c2 s).1.get_total_memory = s.get_total_memory ∧
      (initialise cap2 c2 s).1.get_memory_limit = s.get_memory_limit) := by
  have noop : ∀ s : blazing_device_memory_resource, s.isInitialized = true →
      initialise cap2 c2 s = (s, .returned) := by
    intro s hs
    simp [initialise, hs]
  have hs1 : s1.isInitialized = true ∧ s1.getOptions = c1 := by
    unfold initialise at h1
    rw [h0] at h1
    simp only [Bool.false_eq_true, if_false] at h1
    split at h1
    · simp at h1
    · simp only [Prod.mk.injEq, and_true] at h1
      subst h1
      exact ⟨rfl, rfl⟩
  refine ⟨hs1.1, hs1.2, noop s1 hs1.1, fun s hs => ?_⟩
  rw [noop s hs]
  exact ⟨rfl, rfl, rfl, rfl, rfl⟩

/-- C9, with a pool of 100 bytes on a device of 1000 first and a pool of 5000 bytes, which
the device cannot hold, second. -/
theorem initialise_twice_is_noop_witness :
    (initialise 1000 (some (sample_pool_options 5000))
      (initialise 1000 (some (sample_pool_options 100)) instance0).1).1.getOptions =
      sample_pool_options 100 ∧
    (initialise 1000 (some (sample_pool_options 5000))
      (initialise 1000 (some (sample_pool_options 100)) instance0).1).2 = .returned :=
  have h := initialise_twice_is_noop 1000 1000 (sample_pool_options 100)
    (some (sample_pool_options 5000)) instance0
    (initialise 1000 (some (sample_pool_options 100)) instance0).1 rfl rfl
  ⟨by rw [h.2.2.1]; exact h.2.1, by rw [h.2.2.1]⟩

end blazing_device_memory_resource

/-! ## Theorems: strategy selection, tiers and the singleton life cycle -/

namespace internal_blazing_device_memory_resource

/-- The strategy the constructor picks whenever it succeeds: for
`CudaManagedMemory | PoolAllocation` the pooled managed one, for `PoolAllocation` alone the
pooled managed one as well (the inner test is true for every mode, so
`cnmem_memory_resource` is never built), for `CudaManagedMemory` alone the managed one and
for every other mode the direct one. -/
theorem strategy_selected (gpuMemorySize : Nat) (options : rmmOptions_t)
    (custom_threshold : F32) (r : internal_blazing_device_memory_resource)
    (hnew : new gpuMemorySize options custom_threshold = .ok r) :
    (options.allocation_mode = (CudaManagedMemory ||| PoolAllocation) →
      r.memory_resource = .cnmem_managed_memory_resource) ∧
    (options.allocation_mode = PoolAllocation →
      r.memory_resource = .cnmem_managed_memory_resource) ∧
    (options.allocation_mode = CudaManagedMemory →
      r.memory_resource = .managed_memory_resource) ∧
    (options.allocation_mode = CudaDefaultAllocation →
      r.memory_resource = .cuda_memory_resource) ∧
    r.memory_resource ≠ .cnmem_memory_resource := by
  have inner : ∀ m : Nat, ((if m = CudaManagedMemory then 1 else 0) ||| PoolAllocation) ≠ 0 := by
    intro m
    by_cases h : m = CudaManagedMemory <;> simp [h, PoolAllocation]
  unfold new at hnew
  simp only [inner, if_true, ne_eq, not_false_eq_true] at hnew
  split at hnew
  · next hmode =>
    split at hnew
    · cases hnew
    · cases hnew
      refine ⟨fun _ => rfl, fun _ => rfl, fun h => ?_, fun h => ?_, by simp⟩
      · exfalso
        rw [h] at hmode
        revert hmode
        decide
      · exfalso
        rw [h] at hmode
        revert hmode
        decide
  · next hmode =>
    split at hnew
    · next hm =>
      cases hnew
      refine ⟨fun h => absurd (Or.inl h) hmode, fun h => absurd (Or.inr h) hmode,
        fun _ => rfl, fun h => ?_, by simp⟩
      rw [h] at hm
      exact absurd hm (by decide)
    · next hm =>
      cases hnew
      exact ⟨fun h => absurd (Or.inl h) hmode, fun h => absurd (Or.inr h) hmode,
        fun h => absurd h hm, fun _ => rfl, by simp⟩

/-- C11: for `PoolAllocation` alone, with a pool of 100 bytes on a device of 1000 bytes,
the constructor builds the pooled managed strategy `cnmem_managed_memory_resource`, not the
pooled direct one `cnmem_memory_resource`; the three other modes get the pooled managed,
the managed and the direct strategy. -/
theorem pool_mode_builds_managed_pool :
    new 1000 (sample_pool_options 100) default_threshold =
      .ok { total_memory_size := 1000, memory_limit := 750, used_memory := 0,
            memory_resource := .cnmem_managed_memory_resource } ∧
    new 1000 { sample_pool_options 100 with allocation_mode := CudaManagedMemory ||| PoolAllocation }
        default_threshold =
      .ok { total_memory_size := 1000, memory_limit := 750, used_memory := 0,
            memory_resource := .cnmem_managed_memory_resource } ∧
    new 1000 { sample_pool_options 100 with allocation_mode := CudaManagedMemory }
        default_threshold =
      .ok { total_memory_size := 1000, memory_limit := 750, used_memory := 0,
            memory_resource := .managed_memory_resource } ∧
    new 1000 { sample_pool_options 100 with allocation_mode := CudaDefaultAllocation }
        default_threshold =
      .ok { total_memory_size := 1000, memory_limit := 750, used_memory := 0,
            memory_resource := .cuda_memory_resource } :=
  ⟨rfl, rfl, rfl, rfl⟩

end internal_blazing_device_memory_resource

namespace internal_blazing_device_memory_resource

/-- Outside the one failing case the constructor builds a resource. -/
theorem new_succeeds (gpuMemorySize : Nat) (options : rmmOptions_t) (custom_threshold : F32)
    (hvalid : ¬ ((options.allocation_mode = PoolAllocation ∨
        options.allocation_mode = (CudaManagedMemory ||| PoolAllocation)) ∧
      gpuMemorySize ≤ options.initial_pool_size)) :
    ∃ r, new gpuMemorySize options custom_threshold = .ok r := by
  by_cases hmode : options.allocation_mode = (CudaManagedMemory ||| PoolAllocation) ∨
      options.allocation_mode = PoolAllocation
  · have hsize : ¬ gpuMemorySize ≤ options.initial_pool_size :=
      fun h => hvalid ⟨hmode.symm, h⟩
    simp only [new, hmode, hsize, if_true, if_false]
    split <;> exact ⟨_, rfl⟩
  · simp only [new, hmode, if_false]
    split <;> exact ⟨_, rfl⟩

end internal_blazing_device_memory_resource

namespace blazing_device_memory_resource

/-- C12: `finalize()` on an initialized singleton leaves it not initialized, without a
device resource and with no registered stream; on a singleton that is not initialized it
changes nothing; so a second `finalize()` changes nothing after the first. The function has
no path that throws. -/
theorem finalize_clears_once (s : blazing_device_memory_resource) :
    (s.isInitialized = true →
      (finalize s).isInitialized = false ∧ (finalize s).initialized_resource = none ∧
      (finalize s).registered_streams = []) ∧
    (s.isInitialized = false → finalize s = s) ∧
    finalize (finalize s) = finalize s ∧
    (finalize s).isInitialized = false := by
  have hon : s.isInitialized = true →
      (finalize s).isInitialized = false ∧ (finalize s).initialized_resource = none ∧
      (finalize s).registered_streams = [] := by
    intro h
    unfold finalize
    rw [if_pos h]
    exact ⟨rfl, rfl, rfl⟩
  have hid : ∀ x : blazing_device_memory_resource, x.isInitialized = false → finalize x = x := by
    intro x hx
    unfold finalize
    rw [if_neg (by simp [hx])]
  have hoff : (finalize s).isInitialized = false := by
    by_cases h : s.isInitialized = true
    · exact (hon h).1
    · have h' : s.isInitialized = false := by simpa using h
      rw [hid s h']
      exact h'
  exact ⟨hon, hid s, hid _ hoff, hoff⟩

/-- C12, on an initialized singleton with two registered streams. -/
theorem finalize_clears_once_witness :
    (finalize sample_singleton).isInitialized = false ∧
    (finalize sample_singleton).initialized_resource = none ∧
    (finalize sample_singleton).registered_streams = [] ∧
    finalize instance0 = instance0 :=
  ⟨((finalize_clears_once sample_singleton).1 rfl).1,
   ((finalize_clears_once sample_singleton).1 rfl).2.1,
   ((finalize_clears_once sample_singleton).1 rfl).2.2,
   (finalize_clears_once instance0).2.1 rfl⟩

/-- C17: after `initialize` with a pool of 100 bytes and then `finalize()`, the singleton is
not initialized, and `initialize` with a null pointer keeps the pool options of the first
call: `getOptions()` is not the default `rmmOptions_t` and the resource is built from the
pool options. On the singleton that was never initialized the null pointer does give the
default options. -/
theorem initialise_null_after_finalize_keeps_options :
    (finalize (initialise 1000 (some (sample_pool_options 100)) instance0).1).isInitialized
      = false ∧
    (initialise 1000 none
      (finalize (initialise 1000 (some (sample_pool_options 100)) instance0).1)).1.getOptions
      = sample_pool_options 100 ∧
    (initialise 1000 none
      (finalize (initialise 1000 (some (sample_pool_options 100)) instance0).1)).1.getOptions
      ≠ rmmOptions_t.default ∧
    (initialise 1000 none
      (finalize (initialise 1000 (some (sample_pool_options 100))
        instance0).1)).1.initialized_resource
      = some { total_memory_size := 1000, memory_limit := 750, used_memory := 0,
               memory_resource := .cnmem_managed_memory_resource } ∧
    (initialise 1000 none instance0).1.getOptions = rmmOptions_t.default ∧
    (initialise 1000 none instance0).1.initialized_resource
      = some { total_memory_size := 1000, memory_limit := 750, used_memory := 0,
               memory_resource := .cuda_memory_resource } := by
  refine ⟨rfl, rfl, by decide, rfl, rfl, rfl⟩

/-- C20: on a singleton that is not initialized and holds no resource, `initialize(c)` with
a pool mode and `initial_pool_size` at least the device capacity throws the pool-size error
and leaves the singleton not initialized and without a resource; a later `initialize(c2)`
with a configuration the constructor accepts then returns normally, and afterwards
`isInitialized()` is true and `getOptions()` is `c2`. -/
theorem failed_initialise_can_be_repeated (cap cap2 : Nat) (c c2 : rmmOptions_t)
    (s : blazing_device_memory_resource)
    (hs : s.isInitialized = false) (hres : s.initialized_resource = none)
    (hmode : c.allocation_mode = PoolAllocation ∨
      c.allocation_mode = (CudaManagedMemory ||| PoolAllocation))
    (hsize : cap ≤ c.initial_pool_size)
    (hvalid : ¬ ((c2.allocation_mode = PoolAllocation ∨
        c2.allocation_mode = (CudaManagedMemory ||| PoolAllocation)) ∧
      cap2 ≤ c2.initial_pool_size)) :
    (initialise cap (some c) s).2 =
      .raised internal_blazing_device_memory_resource.pool_error ∧
    (initialise cap (some c) s).1.isInitialized = false ∧
    (initialise cap (some c) s).1.initialized_resource = none ∧
    (initialise cap2 (some c2) (initialise cap (some c) s).1).2 = .returned ∧
    (initialise cap2 (some c2) (initialise cap (some c) s).1).1.isInitialized = true ∧
    (initialise cap2 (some c2) (initialise cap (some c) s).1).1.getOptions = c2 := by
  have hfail : internal_blazing_device_memory_resource.new cap c default_threshold =
      .error internal_blazing_device_memory_resource.pool_error := by
    have hm : c.allocation_mode = (CudaManagedMemory ||| PoolAllocation) ∨
        c.allocation_mode = PoolAllocation := hmode.symm
    simp only [internal_blazing_device_memory_resource.new, hm, hsize, if_true]
  have h1 : initialise cap (some c) s =
      ({ s with options := c }, .raised internal_blazing_device_memory_resource.pool_error) := by
    simp [initialise, hs, hfail]
  obtain ⟨r, hr⟩ :=
    internal_blazing_device_memory_resource.new_succeeds cap2 c2 default_threshold hvalid
  have h2 : initialise cap2 (some c2) { s with options := c } =
      ({ s with options := c2, initialized_resource := some r, default_resource_set := true,
                is_initialized := true }, .returned) := by
    have hs' : ({ s with options := c } : blazing_device_memory_resource).isInitialized
        = false := hs
    simp [initialise, hs', hr]
  rw [h1]
  simp only []
  rw [h2]
  refine ⟨?_, ?_, ?_, ?_, ?_, ?_⟩ <;> trivial

/-- C20, on a device of 1000 bytes: a pool of 5000 bytes is refused, a pool of 100 bytes is
then accepted. -/
theorem failed_initialise_can_be_repeated_witness :
    (initialise 1000 (some (sample_pool_options 5000)) instance0).2 =
      .raised internal_blazing_device_memory_resource.pool_error ∧
    (initialise 1000 (some (sample_pool_options 5000)) instance0).1.isInitialized = false ∧
    (initialise 1000 (some (sample_pool_options 100))
      (initialise 1000 (some (sample_pool_options 5000)) instance0).1).1.isInitialized = true ∧
    (initialise 1000 (some (sample_pool_options 100))
      (initialise 1000 (some (sample_pool_options 5000)) instance0).1).1.getOptions =
      sample_pool_options 100 :=
  have h := failed_initialise_can_be_repeated 1000 1000 (sample_pool_options 5000)
    (sample_pool_options 100) instance0 rfl rfl (Or.inl rfl) (by decide) (by decide)
  ⟨h.1, h.2.1, h.2.2.2.2.1, h.2.2.2.2.2⟩

end blazing_device_memory_resource

/-- C15: with 1000 bytes of capacity, 400 of them in use, and threshold 0.75, the device and
the disk tier have limit 750, but the host tier has limit 300: its constructor multiplies
the threshold by the bytes in use, not by the capacity. -/
theorem host_limit_is_taken_from_used :
    (blazing_host_memory_mesource.new sample_sysinfo default_threshold).get_total_memory
      = 1000 ∧
    (blazing_host_memory_mesource.new sample_sysinfo default_threshold).get_memory_used
      = 400 ∧
    (blazing_host_memory_mesource.new sample_sysinfo default_threshold).get_memory_limit
      = 300 ∧
    (blazing_disk_memory_resource.new sample_statvfs default_threshold).get_total_memory
      = 1000 ∧
    (blazing_disk_memory_resource.new sample_statvfs default_threshold).get_memory_used
      = 400 ∧
    (blazing_disk_memory_resource.new sample_statvfs default_threshold).get_memory_limit
      = 750 ∧
    (internal_blazing_device_memory_resource.new 1000 rmmOptions_t.default
        default_threshold).map (fun r => r.get_memory_limit) = .ok 750 := by
  refine ⟨by decide, by decide, by decide, by decide, by decide, by decide, rfl⟩

/-- C16: on the host tier with 400 bytes in use, `deallocate(500)` leaves
`get_memory_used()` at `2 ^ 64 - 100`, the wrapped difference, and not at 0. -/
theorem host_deallocate_wraps :
    (blazing_host_memory_mesource.new sample_sysinfo default_threshold).get_memory_used
      = 400 ∧
    ((blazing_host_memory_mesource.new sample_sysinfo default_threshold).deallocate
      500).get_memory_used = 2 ^ 64 - 100 ∧
    ((blazing_host_memory_mesource.new sample_sysinfo default_threshold).deallocate
      500).get_memory_used ≠ 0 := by
  refine ⟨by decide, by decide, by decide⟩

/-- C18: on a disk tier built over a filesystem of 1000 bytes with 400 in use,
`get_from_driver_available_memory()` on a host with 16000 bytes of memory, 6000 of them
free, sets the total to 16000 and the used bytes to 10000 and returns 10000: the figures of
`sysinfo`, not those of the filesystem. -/
theorem disk_probe_reads_sysinfo :
    (blazing_disk_memory_resource.new sample_statvfs default_threshold).get_total_memory
      = sample_statvfs.f_blocks * sample_statvfs.f_frsize ∧
    ((blazing_disk_memory_resource.new sample_statvfs default_threshold
      ).get_from_driver_available_memory sample_sysinfo_large).1.get_total_memory = 16000 ∧
    ((blazing_disk_memory_resource.new sample_statvfs default_threshold
      ).get_from_driver_available_memory sample_sysinfo_large).1.get_memory_used = 10000 ∧
    ((blazing_disk_memory_resource.new sample_statvfs default_threshold
      ).get_from_driver_available_memory sample_sysinfo_large).2 = 10000 ∧
    ((blazing_disk_memory_resource.new sample_statvfs default_threshold
      ).get_from_driver_available_memory sample_sysinfo_large).1.get_total_memory
      ≠ sample_statvfs.f_blocks * sample_statvfs.f_frsize := by
  refine ⟨by decide, by decide, by decide, by decide, by decide⟩

namespace internal_blazing_device_memory_resource

/-- C19: for `bytes > 0`, `do_allocate` adds `bytes` to the used counter and then calls the
underlying allocator; when that call throws, `do_allocate` ends with the same exception and
the counter is `used + bytes` all the same (reduced modulo `2 ^ 64`, so exactly
`used + bytes` when the sum fits). With `bytes = 0` it returns the null pointer, leaves the
resource as it was and does not call the underlying allocator. -/
theorem allocate_counts_before_delegating (upstream : Upstream)
    (r : internal_blazing_device_memory_resource) (bytes stream : Nat) (e : Exn)
    (hbytes : 0 < bytes) (hfail : upstream r.memory_resource bytes stream = .error e) :
    (do_allocate upstream r bytes stream).result = .error e ∧
    (do_allocate upstream r bytes stream).delegated = some bytes ∧
    (do_allocate upstream r bytes stream).resource.get_memory_used =
      (r.used_memory + bytes) % 2 ^ 64 ∧
    (r.used_memory + bytes < 2 ^ 64 →
      (do_allocate upstream r bytes stream).resource.get_memory_used =
        r.used_memory + bytes) ∧
    (do_allocate upstream r 0 stream).result = .ok 0 ∧
    (do_allocate upstream r 0 stream).resource = r ∧
    (do_allocate upstream r 0 stream).delegated = none := by
  have hb0 : ¬ bytes ≤ 0 := by omega
  have hused : (do_allocate upstream r bytes stream).resource.get_memory_used =
      (r.used_memory + bytes) % 2 ^ 64 := by
    simp only [do_allocate, hb0, if_false, get_memory_used]
  refine ⟨?_, ?_, hused, fun h => ?_, rfl, rfl, rfl⟩
  · simp only [do_allocate, hb0, if_false]
    exact hfail
  · simp only [do_allocate, hb0, if_false]
  · rw [hused]
    exact Nat.mod_eq_of_lt h

/-- C19, with 700 bytes in use and an allocator that is out of memory: 900 more bytes are
counted although the allocation fails. -/
theorem allocate_counts_before_delegating_witness :
    (do_allocate sample_upstream_failing (sample_resource 700) 900 0).result =
      .error { cls := .rmm_bad_alloc, what := "std::bad_alloc" } ∧
    (do_allocate sample_upstream_failing (sample_resource 700) 900 0).resource.get_memory_used
      = 700 + 900 :=
  have h := allocate_counts_before_delegating sample_upstream_failing (sample_resource 700)
    900 0 { cls := .rmm_bad_alloc, what := "std::bad_alloc" } (by decide) rfl
  ⟨h.1, h.2.2.2.1 (by norm_num [sample_resource])⟩

end internal_blazing_device_memory_resource

/-! ## Theorems: the in-flight set and the attempt counter -/

namespace ral
namespace cache

/-- A call keeps the in-flight set free of duplicates. -/
theorem call_nodup (k : Kernel) (c : KernelCall) (h : k.tasks.Nodup) :
    (kernel.call k c).tasks.Nodup := by
  cases c with
  | add_task task_id => exact h.insert
  | notify_complete task_id => exact h.erase task_id

/-- In a sequence where every `add_task` is notified later, whatever is in flight at the
end was in flight at the start and was not notified in between. -/
theorem calls_mem (cs : List KernelCall) :
    ∀ (k : Kernel) (x : Nat), k.tasks.Nodup → every_add_is_notified cs = true →
      x ∈ (kernel.calls k cs).tasks →
      x ∈ k.tasks ∧ KernelCall.notify_complete x ∉ cs := by
  induction cs with
  | nil =>
    intro k x _ _ hx
    exact ⟨hx, List.not_mem_nil _⟩
  | cons c cs ih =>
    intro k x hk hall hx
    have hx' : x ∈ (kernel.calls (kernel.call k c) cs).tasks := hx
    cases c with
    | add_task y =>
      simp only [every_add_is_notified, Bool.and_eq_true] at hall
      have hlater : KernelCall.notify_complete y ∈ cs := List.mem_of_elem_eq_true hall.1
      obtain ⟨h1, h2⟩ := ih (kernel.call k (.add_task y)) x (call_nodup k _ hk) hall.2 hx'
      have hmem : x = y ∨ x ∈ k.tasks := by
        simpa [kernel.call, kernel.add_task, List.mem_insert_iff] using h1
      rcases hmem with rfl | hmem
      · exact absurd hlater h2
      · refine ⟨hmem, ?_⟩
        intro hbad
        rcases List.mem_cons.mp hbad with h | h
        · cases h
        · exact h2 h
    | notify_complete y =>
      simp only [every_add_is_notified] at hall
      obtain ⟨h1, h2⟩ := ih (kernel.call k (.notify_complete y)) x (call_nodup k _ hk) hall hx'
      have hmem : x ≠ y ∧ x ∈ k.tasks := by
        have := (hk.mem_erase_iff (a := x) (b := y)).mp h1
        exact this
      refine ⟨hmem.2, ?_⟩
      intro hbad
      rcases List.mem_cons.mp hbad with h | h
      · cases h
        exact hmem.1 rfl
      · exact h2 h

/-- C13: starting from an empty in-flight set, after any sequence of atomic `add_task` and
`notify_complete` calls in which every `add_task(id)` is followed later by a
`notify_complete(id)`, the in-flight set is empty; and `add_task` of an id that is present,
like `notify_complete` of an id that is absent, leaves the kernel as it was. -/
theorem in_flight_set_ends_empty (k : Kernel) (cs : List KernelCall) (hk : k.tasks = [])
    (hpairs : every_add_is_notified cs = true) :
    (kernel.calls k cs).tasks = [] ∧
    (∀ (k1 : Kernel) (task_id : Nat), task_id ∈ k1.tasks → kernel.add_task k1 task_id = k1) ∧
    (∀ (k1 : Kernel) (task_id : Nat), task_id ∉ k1.tasks →
      kernel.notify_complete k1 task_id = k1) := by
  refine ⟨?_, ?_, ?_⟩
  · apply List.eq_nil_iff_forall_not_mem.mpr
    intro x hx
    have h := (calls_mem cs k x (by rw [hk]; exact List.nodup_nil) hpairs hx).1
    rw [hk] at h
    exact absurd h (List.not_mem_nil x)
  · intro k1 task_id h
    cases k1 with
    | mk kernel_id tasks =>
      simp only [kernel.add_task]
      congr
      exact List.insert_of_mem h
  · intro k1 task_id h
    cases k1 with
    | mk kernel_id tasks =>
      simp only [kernel.notify_complete]
      congr
      exact List.erase_of_not_mem h

/-- C13, on three add/notify pairs over two ids, interleaved, one id twice. -/
theorem in_flight_set_ends_empty_witness :
    (kernel.calls { kernel_id := 1, tasks := [] }
      [.add_task 7, .add_task 8, .add_task 7, .notify_complete 8, .notify_complete 7,
       .notify_complete 7]).tasks = [] :=
  (in_flight_set_ends_empty { kernel_id := 1, tasks := [] }
    [.add_task 7, .add_task 8, .add_task 7, .notify_complete 8, .notify_complete 7,
     .notify_complete 7] rfl (by decide)).1

end cache

namespace execution

open ral.cache

/-- What one call of `task::run` does to the attempt counter, the executor's limit and the
queue: the counter stays or goes up by one (modulo `2 ^ 64`), and a task that is new in the
queue carries the executor's limit and a counter below the limit of the task that ran. -/
theorem run_with_effect (t : Task) (p : ProcessResult) (w : World) :
    (task.run_with t p w).world.attempts_limit = w.attempts_limit ∧
    ((task.run_with t p w).task.attempts = t.attempts ∨
      (task.run_with t p w).task.attempts = (t.attempts + 1) % 2 ^ 64) ∧
    (task.run_with t p w).task.attempts_limit = t.attempts_limit ∧
    (∀ q ∈ (task.run_with t p w).world.task_queue,
      q ∈ w.task_queue ∨
        (q.attempts_limit = w.attempts_limit ∧ q.attempts < t.attempts_limit)) := by
  cases hp : p.outcome with
  | returned =>
    simp only [task.run_with, hp, notify]
    exact ⟨trivial, Or.inl trivial, trivial, fun q hq => Or.inl hq⟩
  | undefined =>
    simp only [task.run_with, hp]
    exact ⟨trivial, Or.inl trivial, trivial, fun q hq => Or.inl hq⟩
  | raised e =>
    by_cases hb : e.is_rmm_bad_alloc = true
    · by_cases hlt : (t.attempts + 1) % 18446744073709551616 < t.attempts_limit
      · simp only [task.run_with, hp, hb, if_true]
        norm_num only
        rw [if_pos hlt]
        refine ⟨rfl, Or.inr rfl, rfl, ?_⟩
        intro q hq
        simp only [executor.add_task, List.mem_append, List.mem_singleton] at hq
        rcases hq with hq | rfl
        · exact Or.inl hq
        · exact Or.inr ⟨rfl, hlt⟩
      · simp only [task.run_with, hp, hb, if_true]
        norm_num only
        rw [if_neg hlt]
        exact ⟨rfl, Or.inr rfl, rfl, fun q hq => Or.inl hq⟩
    · have hb' : e.is_rmm_bad_alloc = false := by simpa using hb
      simp only [task.run_with, hp, hb', Bool.false_eq_true, if_false, ite_self]
      exact ⟨trivial, Or.inl trivial, trivial, fun q hq => Or.inl hq⟩

/-- One iteration of the executor keeps the executor's limit, and keeps every queued task
at that limit with a counter below it (below 1 when the limit is 0). -/
theorem step_bounded (L : Nat) (p : ProcessResult) (w : World)
    (hw : w.attempts_limit = L)
    (hq : ∀ q ∈ w.task_queue, q.attempts_limit = L ∧ q.attempts < max L 1) :
    (executor.step p w).attempts_limit = L ∧
    ∀ q ∈ (executor.step p w).task_queue, q.attempts_limit = L ∧ q.attempts < max L 1 := by
  unfold executor.step
  split
  · split
    · exact ⟨hw, hq⟩
    · next cur rest heq =>
      have hcur := hq cur (by rw [heq]; exact List.mem_cons_self _ _)
      have hrest : ∀ q ∈ rest, q.attempts_limit = L ∧ q.attempts < max L 1 :=
        fun q h => hq q (by rw [heq]; exact List.mem_cons_of_mem _ h)
      obtain ⟨e1, _, _, e4⟩ := run_with_effect cur p
        { w with task_queue := rest
                 trace := w.trace ++ [Event.run cur.task_id cur.attempts] }
      have hqueue : ∀ q ∈ (task.run_with cur p
          { w with task_queue := rest
                   trace := w.trace ++ [Event.run cur.task_id cur.attempts] }).world.task_queue,
          q.attempts_limit = L ∧ q.attempts < max L 1 := by
        intro q hq1
        rcases e4 q hq1 with h | ⟨h1, h2⟩
        · exact hrest q h
        · refine ⟨h1.trans hw, ?_⟩
          rw [hcur.1] at h2
          exact lt_of_lt_of_le h2 (le_max_left L 1)
      simp only []
      split
      · exact ⟨e1.trans hw, hqueue⟩
      · exact ⟨e1.trans hw, hqueue⟩
  · exact ⟨hw, hq⟩

/-- The executor's loop keeps the same bound on every queued task. -/
theorem execute_bounded (L : Nat) (ps : List ProcessResult) :
    ∀ w : World, w.attempts_limit = L →
      (∀ q ∈ w.task_queue, q.attempts_limit = L ∧ q.attempts < max L 1) →
      ∀ q ∈ (executor.execute ps w).task_queue, q.attempts_limit = L ∧ q.attempts < max L 1 := by
  induction ps with
  | nil =>
    intro w _ hq
    exact hq
  | cons p ps ih =>
    intro w hw hq
    exact ih (executor.step p w) (step_bounded L p w hw hq).1 (step_bounded L p w hw hq).2

/-- C14, as amended: from a new task with limit `L`, whatever `kernel.process` does in each
run, every task the executor ever has in its queue carries the limit `L` and an attempt
counter of at most `max L 1`, and so does the task object after any run of such a task, the
run that lets a terminal failure out included; for `L >= 1` this is
`attempts <= attempts_limit`. -/
theorem attempts_bounded (L : Nat) (k : Kernel) (t : Task) (ps : List ProcessResult)
    (h0 : t.attempts = 0) (hlim : t.attempts_limit = L) :
    ∀ q ∈ (executor.execute ps (World.start k t L)).task_queue,
      q.attempts_limit = L ∧ q.attempts ≤ max L 1 ∧
      (∀ (p : ProcessResult) (w : World),
        (task.run_with q p w).task.attempts_limit = L ∧
        (task.run_with q p w).task.attempts ≤ max L 1) ∧
      (1 ≤ L → q.attempts ≤ q.attempts_limit ∧
        ∀ (p : ProcessResult) (w : World),
          (task.run_with q p w).task.attempts ≤ (task.run_with q p w).task.attempts_limit) := by
  intro q hq
  have hstart : ∀ q ∈ (World.start k t L).task_queue,
      q.attempts_limit = L ∧ q.attempts < max L 1 := by
    intro q hq
    have : q = t := by simpa [World.start] using hq
    subst this
    refine ⟨hlim, ?_⟩
    rw [h0]
    exact lt_of_lt_of_le Nat.zero_lt_one (le_max_right L 1)
  obtain ⟨h1, h2⟩ := execute_bounded L ps (World.start k t L) rfl hstart q hq
  have hrun : ∀ (p : ProcessResult) (w : World),
      (task.run_with q p w).task.attempts_limit = L ∧
      (task.run_with q p w).task.attempts ≤ max L 1 := by
    intro p w
    obtain ⟨_, e2, e3, _⟩ := run_with_effect q p w
    refine ⟨e3.trans h1, ?_⟩
    rcases e2 with e | e
    · rw [e]
      exact le_of_lt h2
    · rw [e]
      exact le_trans (Nat.mod_le _ _) h2
  refine ⟨h1, le_of_lt h2, hrun, fun hL => ?_⟩
  have hmax : max L 1 = L := max_eq_left hL
  refine ⟨?_, fun p w => ?_⟩
  · rw [h1, ← hmax]
    exact le_of_lt h2
  · rw [(hrun p w).1]
    have := (hrun p w).2
    rwa [hmax] at this

/-- C14, at limit 3 after two failed attempts: the third failure leaves the counter at 3. -/
theorem attempts_bounded_witness :
    (task.run_with { sample_task 3 with attempts := 2 } sample_failure
      (World.start sample_kernel (sample_task 3) 3)).task.attempts ≤ 3 :=
  ((attempts_bounded 3 sample_kernel (sample_task 3) [sample_failure, sample_failure] rfl rfl
    { sample_task 3 with attempts := 2 } (List.mem_singleton.mpr rfl)).2.2.2 (by decide)).2
    sample_failure (World.start sample_kernel (sample_task 3) 3)

/-- C14, as stated, fails at limit 0: the first allocation failure of a new task is
terminal, it leaves `task::run`, and the attempt counter is then 1, above the limit 0. -/
theorem attempts_exceed_limit_zero :
    (sample_task 0).attempts = 0 ∧ (sample_task 0).attempts_limit = 0 ∧
    (task.run_with (sample_task 0) sample_failure
      (World.start sample_kernel (sample_task 0) 0)).outcome = .raised sample_bad_alloc ∧
    (task.run_with (sample_task 0) sample_failure
      (World.start sample_kernel (sample_task 0) 0)).task.attempts = 1 ∧
    ¬ ((task.run_with (sample_task 0) sample_failure
        (World.start sample_kernel (sample_task 0) 0)).task.attempts ≤
      (task.run_with (sample_task 0) sample_failure
        (World.start sample_kernel (sample_task 0) 0)).task.attempts_limit) := by
  refine ⟨rfl, rfl, rfl, rfl, by decide⟩

end execution
end ral
